import Mathlib

/-!
Shallow embedding of the OmnisecAI monitoring service's report/score
aggregation pipeline (threat analyzer and data processor), together with
theorems settling the specification claims about it.

Conventions of the embedding:
* Python dict records with optional keys become structures whose optional
  fields have type `Option _`; `d.get(k, default)` becomes `Option.getD`.
* Python `datetime` values are modelled as seconds since the Unix epoch
  (an `Int`); `datetime` subtraction yields a `PyTimedelta`.
* Fallible Python code returns `Except PyError _`; an uncaught Python
  exception is an `Except.error`.
* Python floats produced by true division are modelled as rationals `ℚ`.
-/

namespace Omnisec

/-- The Python exception kinds the embedded code can raise. -/
inductive PyError where
  | valueError (msg : String)
  | attributeError (msg : String)
deriving DecidableEq, Repr

/-- A MongoDB threat-detection document. Every field may be absent. -/
structure ThreatRecord where
  threat_type : Option String := none
  severity : Option String := none
  timestamp : Option Int := none
  false_positive : Option Bool := none
deriving DecidableEq, Repr

/-- A MongoDB model-interaction document (only the fields the embedded code reads). -/
structure InteractionRecord where
  user_id : Option String := none
  duration_ms : Int := 0
deriving DecidableEq, Repr

/-- Python `datetime.min` (year 1) in seconds relative to the Unix epoch. -/
def datetimeMin : Int := -62135596800

/-- Difference of two Python datetimes: a `timedelta` carrying total seconds. -/
structure PyTimedelta where
  totalSeconds : Int
deriving DecidableEq, Repr

/-- `a - b` on Python datetimes. -/
def datetimeSub (a b : Int) : PyTimedelta := ⟨a - b⟩

/-- The `days` attribute of a Python `timedelta`: floor division by 86400. -/
def PyTimedelta.days (td : PyTimedelta) : Int := Int.fdiv td.totalSeconds 86400

/-- Python `timedelta` objects have only `days`, `seconds` and `microseconds`
components; accessing `.hours` raises `AttributeError`.  Modelled as an
accessor that always fails, mirroring the attribute lookup in
`_calculate_threat_exposure`. -/
def PyTimedelta.hours (_ : PyTimedelta) : Except PyError Int :=
  .error (.attributeError "timedelta object has no attribute hours")

/-- Count the elements of a list satisfying a fallible predicate, in order,
propagating the first raised exception (the semantics of a Python list
comprehension whose condition may raise). -/
def countIfM {α : Type} (p : α → Except PyError Bool) : List α → Except PyError Nat
  | [] => .ok 0
  | a :: as => do
      let b ← p a
      let n ← countIfM p as
      pure (if b then n + 1 else n)

/-- `ThreatAnalyzer._calculate_severity_score`: mean of per-threat severity
values {critical:4, high:3, medium:2, low:1} (default 1), or 0.0 on empty. -/
def severityValue (s : String) : Nat :=
  if s = "critical" then 4
  else if s = "high" then 3
  else if s = "medium" then 2
  else if s = "low" then 1
  else 1

def _calculate_severity_score (threats : List ThreatRecord) : ℚ :=
  if threats = [] then 0
  else ((threats.map fun t => (severityValue (t.severity.getD "low") : ℚ)).sum) / threats.length

/-- `ThreatAnalyzer._calculate_detection_rate`: fraction of records whose
`false_positive` flag (default `False`) is false; 0.0 on empty. -/
def _calculate_detection_rate (threats : List ThreatRecord) : ℚ :=
  if threats = [] then 0
  else ((threats.filter fun t => ! t.false_positive.getD false).length : ℚ) / threats.length

/-- `ThreatAnalyzer._calculate_false_positive_rate`: fraction of records whose
`false_positive` flag (default `False`) is true; 0.0 on empty. -/
def _calculate_false_positive_rate (threats : List ThreatRecord) : ℚ :=
  if threats = [] then 0
  else ((threats.filter fun t => t.false_positive.getD false).length : ℚ) / threats.length

/-- Per-threat severity penalty in `_calculate_model_security_score`:
`{'critical': 20, 'high': 15, 'medium': 10, 'low': 5}.get(t.get('severity', 'low'), 5)`. -/
def severityPenalty (sev : Option String) : Nat :=
  let s := sev.getD "low"
  if s = "critical" then 20
  else if s = "high" then 15
  else if s = "medium" then 10
  else if s = "low" then 5
  else 5

/-- `ThreatAnalyzer._calculate_model_security_score`: 100 minus 5 per threat,
minus per-threat severity penalties, minus 10 when more than 1000
interactions, clamped at 0. -/
def _calculate_model_security_score (threats : List ThreatRecord)
    (interactions : List InteractionRecord) : Int :=
  let base_score : Int := 100
  let threat_penalty : Int := (threats.length : Int) * 5
  let severity_penalty : Int := ((threats.map fun t => severityPenalty t.severity).sum : Nat)
  let interaction_penalty : Int := if interactions.length > 1000 then 10 else 0
  max 0 (base_score - threat_penalty - severity_penalty - interaction_penalty)

/-- The four counters built by `_calculate_threat_exposure`. -/
structure ThreatExposure where
  total : Nat
  last_24h : Nat
  last_7d : Nat
  last_30d : Nat
deriving DecidableEq, Repr

/-- `ThreatAnalyzer._calculate_threat_exposure`, with `now` the value of
`datetime.utcnow()`.  The `last_24h` entry evaluates
`(utcnow() - t.get('timestamp', datetime.min)).hours`, an attribute access
that raises `AttributeError` in Python; the dict fields are evaluated in
source order, so the error surfaces as soon as the 24-hour comprehension
inspects its first record. -/
def _calculate_threat_exposure (now : Int) (threats : List ThreatRecord) :
    Except PyError ThreatExposure := do
  let total := threats.length
  let last_24h ← countIfM (fun t => do
      let h ← (datetimeSub now (t.timestamp.getD datetimeMin)).hours
      pure (decide (h ≤ 24))) threats
  let last_7d ← countIfM (fun t =>
      pure (decide ((datetimeSub now (t.timestamp.getD datetimeMin)).days ≤ 7))) threats
  let last_30d ← countIfM (fun t =>
      pure (decide ((datetimeSub now (t.timestamp.getD datetimeMin)).days ≤ 30))) threats
  pure ⟨total, last_24h, last_7d, last_30d⟩

/-! ### DataProcessor: query inputs

`generate_security_report` reads aggregate rows from PostgreSQL and two
document counts from MongoDB; those externally supplied query results are
modelled as an explicit `QueryData` input. -/

/-- One row of the grouped `security_threats` query: per (threat_type,
severity) a row count and how many of those rows are resolved. -/
structure ThreatRow where
  threat_type : String
  severity : String
  count : Nat
  resolved : Nat
deriving DecidableEq, Repr

/-- The `ai_models` aggregate row. -/
structure ModelsRow where
  total_models : Nat
  active_models : Nat
deriving DecidableEq, Repr

/-- The `audit_logs` aggregate row. -/
structure UserActivityRow where
  active_users : Nat
  total_actions : Nat
deriving DecidableEq, Repr

/-- All query results consumed by one report generation. -/
structure QueryData where
  threats : List ThreatRow
  models : ModelsRow
  user_activity : UserActivityRow
  security_events : Nat
  threat_detections : Nat
deriving DecidableEq, Repr

/-! ### DataProcessor: report structures -/

/-- The `executive_summary` section of a summary report. -/
structure ExecutiveSummary where
  total_threats : Nat
  resolved_threats : Nat
  resolution_rate_percent : ℚ
  security_events : Nat
  threat_detections : Nat
  active_models : Nat
  active_users : Nat
deriving DecidableEq, Repr

/-- The per-threat-type entry of `threat_summary`: running totals and a
severity → count map (a Python dict, kept as an insertion-ordered
association list). -/
structure TypeSummary where
  total : Nat
  resolved : Nat
  by_severity : List (String × Nat)
deriving DecidableEq, Repr

/-- The `threat_analysis` section. -/
structure ThreatAnalysisSection where
  by_type : List (String × TypeSummary)
  top_threats : List (String × TypeSummary)
deriving DecidableEq, Repr

/-- The `model_security` section. -/
structure ModelSecuritySection where
  total_models : Nat
  active_models : Nat
  threats_per_model : ℚ
deriving DecidableEq, Repr

/-- The four placeholder sub-reports added by the detailed tier. -/
structure DetailedAnalysis where
  temporal_patterns : String
  model_interactions : String
  user_behavior : String
  attack_vectors : String
deriving DecidableEq, Repr

/-- A summary-tier report; the detailed tier reuses the same shape with
`report_type = "detailed"` and the extra `detailed_analysis` key present. -/
structure SummaryReport where
  report_type : String
  organization_id : String
  period_days : Int
  executive_summary : ExecutiveSummary
  threat_analysis : ThreatAnalysisSection
  model_security : ModelSecuritySection
  recommendations : List String
  detailed_analysis : Option DetailedAnalysis
deriving DecidableEq, Repr

/-! ### DataProcessor: numeric helpers -/

/-- Python `int()` on a (true-division) float value: truncation toward zero. -/
def pyInt (q : ℚ) : Int := Int.tdiv q.num (q.den : Int)

/-- Python `round(x)` to the nearest integer, ties to even. -/
def roundHalfEven (q : ℚ) : Int :=
  let f := Int.floor q
  let r := q - (f : ℚ)
  if r < 1 / 2 then f
  else if 1 / 2 < r then f + 1
  else if f % 2 = 0 then f else f + 1

/-- Python `round(x, 2)`. -/
def pyRound2 (q : ℚ) : ℚ := (roundHalfEven (q * 100) : ℚ) / 100

/-- The resolution-rate expression of `_generate_summary_report`:
`(resolved_threats / total_threats * 100) if total_threats > 0 else 0`. -/
def resolutionRateCalc (resolved total : Nat) : ℚ :=
  if 0 < total then (resolved : ℚ) / (total : ℚ) * 100 else 0

/-! ### DataProcessor: summary-report assembly -/

/-- Overwrite (or append) a key in an insertion-ordered dict. -/
def setAssoc (l : List (String × Nat)) (k : String) (v : Nat) : List (String × Nat) :=
  if l.any (fun p => p.1 = k) then
    l.map fun p => if p.1 = k then (p.1, v) else p
  else l ++ [(k, v)]

/-- Fold one threat row into its type's summary entry. -/
def updateTypeSummary (ts : TypeSummary) (row : ThreatRow) : TypeSummary :=
  { total := ts.total + row.count
    resolved := ts.resolved + row.resolved
    by_severity := setAssoc ts.by_severity row.severity row.count }

/-- Fold one threat row into the `threat_summary` dict. -/
def addThreatRow (acc : List (String × TypeSummary)) (row : ThreatRow) :
    List (String × TypeSummary) :=
  if acc.any (fun p => p.1 = row.threat_type) then
    acc.map fun p => if p.1 = row.threat_type then (p.1, updateTypeSummary p.2 row) else p
  else acc ++ [(row.threat_type, updateTypeSummary ⟨0, 0, []⟩ row)]

/-- The `threat_summary` grouping loop of `_generate_summary_report`. -/
def buildThreatSummary (rows : List ThreatRow) : List (String × TypeSummary) :=
  rows.foldl addThreatRow []

/-- Stable insertion keeping the list sorted by `total` descending (an entry
moves ahead only of strictly smaller totals, matching the stability of
Python's `sorted(..., reverse=True)`). -/
def insertByTotalDesc (x : String × TypeSummary) :
    List (String × TypeSummary) → List (String × TypeSummary)
  | [] => [x]
  | y :: ys => if y.2.total < x.2.total then x :: y :: ys else y :: insertByTotalDesc x ys

/-- `sorted(threat_summary.items(), key=lambda x: x[1]['total'], reverse=True)`. -/
def sortByTotalDesc (l : List (String × TypeSummary)) : List (String × TypeSummary) :=
  l.foldr insertByTotalDesc []

/-- `DataProcessor._generate_report_recommendations`: guarded string rules
fired in declaration order. -/
def _generate_report_recommendations (threat_summary : List (String × TypeSummary))
    (models : ModelsRow) (security_events : Nat) : List String :=
  (if threat_summary.length > 5 then
    ["High variety of threat types detected - consider implementing comprehensive threat monitoring"]
   else [])
  ++ threat_summary.filterMap (fun p =>
      if (p.2.resolved : ℚ) / ((max p.2.total 1 : Nat) : ℚ) < 1 / 2 then
        some ("Low resolution rate for " ++ p.1 ++ " threats - review response procedures")
      else none)
  ++ (if (models.active_models : ℚ) < (models.total_models : ℚ) * (4 / 5) then
    ["Consider activating more models or removing inactive ones to improve security posture"]
   else [])
  ++ (if security_events > 1000 then
    ["High security event volume - consider implementing automated filtering"]
   else [])

/-- `DataProcessor._generate_summary_report` over the supplied query data. -/
def _generate_summary_report (organization_id : String) (days : Int)
    (data : QueryData) : SummaryReport :=
  let threat_summary := buildThreatSummary data.threats
  let total_threats := (data.threats.map fun r => r.count).sum
  let resolved_threats := (data.threats.map fun r => r.resolved).sum
  let resolution_rate := resolutionRateCalc resolved_threats total_threats
  { report_type := "summary"
    organization_id := organization_id
    period_days := days
    executive_summary :=
      { total_threats := total_threats
        resolved_threats := resolved_threats
        resolution_rate_percent := pyRound2 resolution_rate
        security_events := data.security_events
        threat_detections := data.threat_detections
        active_models := data.models.active_models
        active_users := data.user_activity.active_users }
    threat_analysis :=
      { by_type := threat_summary
        top_threats := (sortByTotalDesc threat_summary).take 5 }
    model_security :=
      { total_models := data.models.total_models
        active_models := data.models.active_models
        threats_per_model :=
          pyRound2 ((total_threats : ℚ) / ((max data.models.active_models 1 : Nat) : ℚ)) }
    recommendations := _generate_report_recommendations threat_summary data.models data.security_events
    detailed_analysis := none }

/-- `DataProcessor._generate_detailed_report`: the summary report updated in
place with the detailed report type and four placeholder analysis payloads. -/
def _generate_detailed_report (organization_id : String) (days : Int)
    (data : QueryData) : SummaryReport :=
  let summary_report := _generate_summary_report organization_id days data
  { summary_report with
    report_type := "detailed"
    detailed_analysis := some
      { temporal_patterns := "temporal patterns analysis"
        model_interactions := "model interactions analysis"
        user_behavior := "user behavior analysis"
        attack_vectors := "attack vectors analysis" } }

/-! ### DataProcessor: executive tier -/

/-- `DataProcessor._calculate_security_posture_score`: 100 minus penalties
for unresolved threats, threat volume and inactive models, clamped at 0 and
truncated to an integer by Python's `int()`. -/
def _calculate_security_posture_score (report : SummaryReport) : Int :=
  let base_score : ℚ := 100
  let resolution_rate := report.executive_summary.resolution_rate_percent
  let resolution_penalty := (100 - resolution_rate) * (1 / 2)
  let threat_volume_penalty : ℚ :=
    min ((report.executive_summary.total_threats : ℚ) * 2) 30
  let model_coverage : ℚ :=
    (report.model_security.active_models : ℚ)
      / ((max report.model_security.total_models 1 : Nat) : ℚ)
  let model_penalty := (1 - model_coverage) * 20
  pyInt (max 0 (base_score - resolution_penalty - threat_volume_penalty - model_penalty))

/-- `DataProcessor._calculate_threat_trend`. -/
def _calculate_threat_trend (report : SummaryReport) : String :=
  if report.executive_summary.total_threats > 50 then "Increasing"
  else if report.executive_summary.total_threats > 20 then "Stable"
  else "Decreasing"

/-- `DataProcessor._assess_risk_level`: posture score bucketed into four labels. -/
def _assess_risk_level (report : SummaryReport) : String :=
  let score := _calculate_security_posture_score report
  if score ≥ 80 then "Low"
  else if score ≥ 60 then "Medium"
  else if score ≥ 40 then "High"
  else "Critical"

/-- `DataProcessor._identify_critical_issues`. -/
def _identify_critical_issues (report : SummaryReport) : List String :=
  (if report.executive_summary.resolution_rate_percent < 50 then
    ["Low threat resolution rate"] else [])
  ++ (if report.executive_summary.total_threats > 100 then
    ["High threat volume"] else [])
  ++ report.threat_analysis.top_threats.filterMap (fun p =>
      if p.2.by_severity.any (fun q => q.1 = "critical") then
        some ("Critical " ++ p.1 ++ " threats detected")
      else none)

/-- `DataProcessor._generate_strategic_recommendations`. -/
def _generate_strategic_recommendations (report : SummaryReport) : List String :=
  let score := _calculate_security_posture_score report
  (if score < 70 then
    ["Invest in additional security monitoring and response capabilities"] else [])
  ++ (if report.executive_summary.total_threats > 50 then
    ["Consider implementing automated threat response systems"] else [])
  ++ (if report.model_security.threats_per_model > 5 then
    ["Review and strengthen individual model security configurations"] else [])
  ++ ["Regular security training for development teams",
      "Establish quarterly security review meetings"]

/-- The `key_metrics` section of an executive report. -/
structure KeyMetrics where
  security_posture_score : Int
  threat_trend : String
  resolution_efficiency : ℚ
  model_coverage : ℚ
deriving DecidableEq, Repr

/-- The `risk_assessment` section of an executive report. -/
structure RiskAssessment where
  current_risk_level : String
  critical_issues : List String
  trending_threats : List (String × TypeSummary)
deriving DecidableEq, Repr

/-- The `compliance_status` section (fixed strings in the code). -/
structure ComplianceStatus where
  monitoring_coverage : String
  incident_response : String
  policy_compliance : String
deriving DecidableEq, Repr

/-- An executive-tier report. -/
structure ExecutiveReport where
  report_type : String
  organization_id : String
  period_days : Int
  key_metrics : KeyMetrics
  risk_assessment : RiskAssessment
  strategic_recommendations : List String
  compliance_status : ComplianceStatus
deriving DecidableEq, Repr

/-- `DataProcessor._generate_executive_report`: reshaped from the summary report. -/
def _generate_executive_report (organization_id : String) (days : Int)
    (data : QueryData) : ExecutiveReport :=
  let summary_report := _generate_summary_report organization_id days data
  { report_type := "executive"
    organization_id := organization_id
    period_days := summary_report.period_days
    key_metrics :=
      { security_posture_score := _calculate_security_posture_score summary_report
        threat_trend := _calculate_threat_trend summary_report
        resolution_efficiency := summary_report.executive_summary.resolution_rate_percent
        model_coverage :=
          pyRound2 ((summary_report.model_security.active_models : ℚ)
            / ((max summary_report.model_security.total_models 1 : Nat) : ℚ) * 100) }
    risk_assessment :=
      { current_risk_level := _assess_risk_level summary_report
        critical_issues := _identify_critical_issues summary_report
        trending_threats := summary_report.threat_analysis.top_threats.take 3 }
    strategic_recommendations := _generate_strategic_recommendations summary_report
    compliance_status :=
      { monitoring_coverage := "Good"
        incident_response := "Adequate"
        policy_compliance := "Review Required" } }

/-- The value returned by `generate_security_report`: the summary and
detailed tiers share one dict shape, the executive tier has its own. -/
inductive Report where
  | base (r : SummaryReport)
  | exec (r : ExecutiveReport)
deriving DecidableEq, Repr

/-- `DataProcessor.generate_security_report`: dispatch on `report_type`.
An unknown type raises `ValueError(f"Unknown report type: {report_type}")`;
the surrounding `except` block logs and re-raises the same exception, so the
error value propagates to the caller unchanged. -/
def generate_security_report (organization_id report_type : String) (days : Int)
    (data : QueryData) : Except PyError Report :=
  if report_type = "summary" then
    .ok (.base (_generate_summary_report organization_id days data))
  else if report_type = "detailed" then
    .ok (.base (_generate_detailed_report organization_id days data))
  else if report_type = "executive" then
    .ok (.exec (_generate_executive_report organization_id days data))
  else
    .error (.valueError ("Unknown report type: " ++ report_type))

/-! ### ThreatAnalyzer.analyze_model and its best-effort persistence -/

/-- The `security_assessment` block of `analyze_model`'s result. -/
structure SecurityAssessment where
  overall_score : Nat
  vulnerabilities_found : Nat
  critical_issues : Nat
  high_issues : Nat
  medium_issues : Nat
  low_issues : Nat
deriving DecidableEq, Repr

/-- One entry of `detailed_findings`. -/
structure Finding where
  finding_type : String
  severity : String
  confidence : ℚ
  description : String
  recommendation : String
deriving DecidableEq, Repr

/-- The `performance_impact` block. -/
structure PerformanceImpact where
  latency_ms : Nat
  memory_usage_mb : Nat
  cpu_utilization : Nat
deriving DecidableEq, Repr

/-- The analysis payload returned by `analyze_model`. -/
structure AnalysisResult where
  model_id : String
  analysis_type : String
  timestamp : Int
  security_assessment : SecurityAssessment
  detailed_findings : List Finding
  performance_impact : PerformanceImpact
deriving DecidableEq, Repr

/-- The simulated analysis dict `analyze_model` builds (all values are
literals in the code). -/
def mkAnalysisResult (model_id analysis_type : String) (now : Int) : AnalysisResult :=
  { model_id := model_id
    analysis_type := analysis_type
    timestamp := now
    security_assessment :=
      { overall_score := 75
        vulnerabilities_found := 3
        critical_issues := 0
        high_issues := 1
        medium_issues := 2
        low_issues := 0 }
    detailed_findings :=
      [{ finding_type := "adversarial_vulnerability"
         severity := "high"
         confidence := 85 / 100
         description := "Model shows sensitivity to adversarial perturbations"
         recommendation := "Implement adversarial training or input preprocessing" },
       { finding_type := "data_leakage"
         severity := "medium"
         confidence := 72 / 100
         description := "Potential memorization of training data detected"
         recommendation := "Apply differential privacy techniques" }]
    performance_impact :=
      { latency_ms := 150
        memory_usage_mb := 512
        cpu_utilization := 45 } }

/-- `ThreatAnalyzer._store_analysis_result`: a MongoDB insert followed by a
PostgreSQL insert, both inside a `try` whose `except` logs the error and
deliberately does not re-raise.  The outcomes of the two external writes are
injected as `Except` parameters. -/
def _store_analysis_result (mongoWrite pgWrite : Except String Unit) : Except String Unit :=
  match (do mongoWrite; pgWrite : Except String Unit) with
  | .ok _ => .ok ()
  | .error _ => .ok ()

/-- `ThreatAnalyzer.analyze_model`: builds the simulated analysis payload,
runs the best-effort store side-effect, and returns the payload.  The outer
`except` re-raises only exceptions that escape the body. -/
def analyze_model (organization_id model_id analysis_type : String) (now : Int)
    (mongoWrite pgWrite : Except String Unit) : Except String AnalysisResult := do
  let analysis_result := mkAnalysisResult model_id analysis_type now
  let _ ← _store_analysis_result mongoWrite pgWrite
  pure analysis_result

/-! ### Claim theorems -/

/-- A concrete query-data value used to instantiate universally quantified
claims at a specific input. -/
def sampleData : QueryData :=
  { threats := [⟨"model_poisoning", "critical", 4, 1⟩, ⟨"data_extraction", "low", 2, 2⟩]
    models := ⟨3, 2⟩
    user_activity := ⟨5, 40⟩
    security_events := 7
    threat_detections := 6 }

/-- C1: `_calculate_threat_exposure` is claimed to return the four counters
without crashing even when a record has no timestamp.  On the claim's own
input — one record with no timestamp and one timestamped at `now` — the code
instead raises `AttributeError` while building the `last_24h` counter,
because Python `timedelta` has no `hours` attribute; no counters are
returned.  Only the empty list avoids the faulty attribute access (the
comprehension never evaluates its condition) and yields all four counters. -/
theorem c1_threat_exposure_crashes_on_nonempty :
    _calculate_threat_exposure 1760227200 [{ timestamp := none }, { timestamp := some 1760227200 }]
        = .error (.attributeError "timedelta object has no attribute hours")
      ∧ _calculate_threat_exposure 1760227200 [] = .ok ⟨0, 0, 0, 0⟩ :=
  ⟨rfl, rfl⟩

/-- C2: for every `report_type` other than `"summary"`, `"detailed"` and
`"executive"`, `generate_security_report` fails with a `ValueError` (the
Python invalid-argument error) whose message names the unrecognized value,
and that error value is what the caller receives. -/
theorem c2_unknown_report_type_client_error (organization_id report_type : String)
    (days : Int) (data : QueryData)
    (h1 : report_type ≠ "summary") (h2 : report_type ≠ "detailed")
    (h3 : report_type ≠ "executive") :
    generate_security_report organization_id report_type days data
      = .error (.valueError ("Unknown report type: " ++ report_type)) := by
  simp [generate_security_report, h1, h2, h3]

/-- Witness for C2 at the spec's own example value `"bogus_tier"`. -/
theorem c2_unknown_report_type_client_error_witness :
    generate_security_report "org-1" "bogus_tier" 30 sampleData
      = .error (.valueError ("Unknown report type: " ++ "bogus_tier")) :=
  c2_unknown_report_type_client_error "org-1" "bogus_tier" 30 sampleData
    (by decide) (by decide) (by decide)

/-- C3: on the same query data for the same organization and window, the
detailed report's `executive_summary` equals the summary report's
`executive_summary` field for field — the detailed tier is the summary
report updated in place, not an independent recomputation — and both tiers
are what `generate_security_report` dispatches to. -/
theorem c3_detailed_reuses_summary_executive_summary (organization_id : String)
    (days : Int) (data : QueryData) :
    (_generate_detailed_report organization_id days data).executive_summary
        = (_generate_summary_report organization_id days data).executive_summary
      ∧ generate_security_report organization_id "detailed" days data
        = .ok (.base (_generate_detailed_report organization_id days data))
      ∧ generate_security_report organization_id "summary" days data
        = .ok (.base (_generate_summary_report organization_id days data)) :=
  ⟨rfl, rfl, rfl⟩

/-- C9: the best-effort persistence in `analyze_model` never fails the
primary response: whatever the outcomes of the MongoDB and PostgreSQL
writes — including raising errors — `_store_analysis_result` swallows the
failure and `analyze_model` returns its analysis payload unchanged. -/
theorem c9_store_failure_never_fails_response
    (organization_id model_id analysis_type : String) (now : Int)
    (mongoWrite pgWrite : Except String Unit) :
    analyze_model organization_id model_id analysis_type now mongoWrite pgWrite
        = .ok (mkAnalysisResult model_id analysis_type now)
      ∧ _store_analysis_result mongoWrite pgWrite = .ok () := by
  cases mongoWrite <;> cases pgWrite <;> exact ⟨rfl, rfl⟩

/-- The model security score with its `let` bindings inlined. -/
theorem model_security_score_def (threats : List ThreatRecord)
    (interactions : List InteractionRecord) :
    _calculate_model_security_score threats interactions
      = max 0 (100 - (threats.length : Int) * 5
          - ((threats.map fun t => severityPenalty t.severity).sum : Nat)
          - (if interactions.length > 1000 then 10 else 0)) := rfl

/-- The severity penalty cast to `Int`, spelled as the claim's literal table. -/
theorem severityPenalty_cast_ite (s : Option String) :
    (severityPenalty s : Int)
      = (if s.getD "low" = "critical" then 20
         else if s.getD "low" = "high" then 15
         else if s.getD "low" = "medium" then 10
         else if s.getD "low" = "low" then 5
         else 5) := by
  simp only [severityPenalty]
  split_ifs <;> simp

/-- C4: the model security score equals
`max(0, 100 − 5·|threats| − Σ severity penalties − (10 if |interactions| > 1000))`
with the per-threat penalty table {critical:20, high:15, medium:10, low:5}
defaulting to 5 for an unknown or missing severity, and the result always
lies in [0, 100]. -/
theorem c4_model_security_score_formula (threats : List ThreatRecord)
    (interactions : List InteractionRecord) :
    _calculate_model_security_score threats interactions
        = max 0 (100 - 5 * (threats.length : Int)
            - (threats.map fun t =>
                (if t.severity.getD "low" = "critical" then (20 : Int)
                 else if t.severity.getD "low" = "high" then 15
                 else if t.severity.getD "low" = "medium" then 10
                 else if t.severity.getD "low" = "low" then 5
                 else 5)).sum
            - (if interactions.length > 1000 then 10 else 0))
      ∧ 0 ≤ _calculate_model_security_score threats interactions
      ∧ _calculate_model_security_score threats interactions ≤ 100 := by
  have hsum : (((threats.map fun t => severityPenalty t.severity).sum : Nat) : Int)
      = (threats.map fun t =>
          (if t.severity.getD "low" = "critical" then (20 : Int)
           else if t.severity.getD "low" = "high" then 15
           else if t.severity.getD "low" = "medium" then 10
           else if t.severity.getD "low" = "low" then 5
           else 5)).sum := by
    rw [Nat.cast_list_sum, List.map_map]
    refine congrArg List.sum (List.map_congr_left fun t _ => ?_)
    exact severityPenalty_cast_ite t.severity
  refine ⟨?_, ?_, ?_⟩
  · rw [model_security_score_def, hsum, mul_comm]
  · exact le_max_left 0 _
  · rw [model_security_score_def]
    refine max_le (by norm_num) ?_
    split_ifs <;> omega

/-- C6: the model security score is monotonically non-increasing in threat
count (prepending a threat) and in any one threat's severity penalty, is
never negative, and on 50 critical threats is exactly 0 whatever the
interaction list. -/
theorem c6_model_security_score_monotone :
    (∀ (t : ThreatRecord) (ts : List ThreatRecord) (inter : List InteractionRecord),
        _calculate_model_security_score (t :: ts) inter
          ≤ _calculate_model_security_score ts inter)
  ∧ (∀ (pre post : List ThreatRecord) (t : ThreatRecord) (s1 s2 : Option String)
        (inter : List InteractionRecord), severityPenalty s1 ≤ severityPenalty s2 →
        _calculate_model_security_score (pre ++ { t with severity := s2 } :: post) inter
          ≤ _calculate_model_security_score (pre ++ { t with severity := s1 } :: post) inter)
  ∧ (∀ (ts : List ThreatRecord) (inter : List InteractionRecord),
        0 ≤ _calculate_model_security_score ts inter)
  ∧ (∀ inter : List InteractionRecord,
        _calculate_model_security_score
          (List.replicate 50 { severity := some "critical" }) inter = 0) := by
  refine ⟨?_, ?_, ?_, ?_⟩
  · intro t ts inter
    unfold _calculate_model_security_score
    apply max_le_max le_rfl
    simp only [List.length_cons, List.map_cons, List.sum_cons]
    push_cast
    omega
  · intro pre post t s1 s2 inter h
    unfold _calculate_model_security_score
    apply max_le_max le_rfl
    simp only [List.length_append, List.length_cons, List.map_append, List.map_cons,
      List.sum_append, List.sum_cons]
    push_cast
    omega
  · intro ts inter
    exact le_max_left 0 _
  · intro inter
    rw [model_security_score_def]
    simp only [List.length_replicate, List.map_replicate, List.sum_replicate, smul_eq_mul]
    norm_num [severityPenalty]
    split_ifs <;> omega

/-- Witness for C6's severity-monotonicity hypothesis: raising a lone
threat's severity from low (penalty 5) to critical (penalty 20) does not
increase the score. -/
theorem c6_model_security_score_monotone_witness :
    _calculate_model_security_score [{ severity := some "critical" }] []
      ≤ _calculate_model_security_score [{ severity := some "low" }] [] :=
  c6_model_security_score_monotone.2.1 [] [] {} (some "low") (some "critical") []
    (by decide)

/-- `pyInt` of an integer-valued rational is that integer. -/
theorem pyInt_intCast (n : Int) : pyInt (n : ℚ) = n := by
  simp [pyInt, Rat.intCast_num, Rat.intCast_den]

/-- A report with 100% resolution rate, zero threats and `active_models =
total_models = 0`: reachable field values for an organization with no
registered models. -/
def zeroModelsReport : SummaryReport :=
  { report_type := "summary"
    organization_id := "org-1"
    period_days := 30
    executive_summary :=
      { total_threats := 0
        resolved_threats := 0
        resolution_rate_percent := 100
        security_events := 0
        threat_detections := 0
        active_models := 0
        active_users := 0 }
    threat_analysis := { by_type := [], top_threats := [] }
    model_security := { total_models := 0, active_models := 0, threats_per_model := 0 }
    recommendations := []
    detailed_analysis := none }

/-- Like `zeroModelsReport` but with one model, active: genuinely full coverage. -/
def fullCoverageReport : SummaryReport :=
  { zeroModelsReport with
    executive_summary := { zeroModelsReport.executive_summary with active_models := 1 }
    model_security := { total_models := 1, active_models := 1, threats_per_model := 0 } }

/-- C5 counterexample: a summary report with `resolution_rate_percent = 100`,
`total_threats = 0` and `active_models = total_models` (both 0) scores 80,
not 100 — the model coverage `active / max(total, 1)` is 0, so the full
20-point model penalty applies. -/
theorem c5_zero_models_counterexample :
    zeroModelsReport.executive_summary.resolution_rate_percent = 100
      ∧ zeroModelsReport.executive_summary.total_threats = 0
      ∧ zeroModelsReport.model_security.active_models
          = zeroModelsReport.model_security.total_models
      ∧ _calculate_security_posture_score zeroModelsReport ≠ 100
      ∧ _calculate_security_posture_score zeroModelsReport = 80 := by
  have hval : _calculate_security_posture_score zeroModelsReport = 80 := by
    unfold _calculate_security_posture_score zeroModelsReport
    norm_num [min_def, max_def]
    rw [show (80 : ℚ) = ((80 : Int) : ℚ) by norm_num, pyInt_intCast]
  exact ⟨rfl, rfl, rfl, by rw [hval]; decide, hval⟩

/-- C5 (amended): the posture score is 100 on a report with 100% resolution
rate, zero threats and full model coverage `active_models = total_models`
provided at least one model exists (`total_models ≥ 1`; with
`total_models = 0` the coverage fraction `active/max(total,1)` is 0 and the
score is 80); and in general it equals
`int(max(0, 100 − (100−rate)·0.5 − min(2·threats, 30) − (1 − active/max(total,1))·20))`. -/
theorem c5_posture_score_amended (report : SummaryReport)
    (h100 : report.executive_summary.resolution_rate_percent = 100)
    (h0 : report.executive_summary.total_threats = 0)
    (hfull : report.model_security.active_models = report.model_security.total_models)
    (hpos : 1 ≤ report.model_security.total_models) :
    _calculate_security_posture_score report = 100
      ∧ ∀ r : SummaryReport, _calculate_security_posture_score r
          = pyInt (max 0 (100
              - (100 - r.executive_summary.resolution_rate_percent) * (1 / 2)
              - min ((r.executive_summary.total_threats : ℚ) * 2) 30
              - (1 - (r.model_security.active_models : ℚ)
                  / ((max r.model_security.total_models 1 : Nat) : ℚ)) * 20)) := by
  constructor
  · unfold _calculate_security_posture_score
    rw [h100, h0, hfull, max_eq_left hpos]
    have hne : ((report.model_security.total_models : Nat) : ℚ) ≠ 0 := by
      exact_mod_cast Nat.pos_iff_ne_zero.mp hpos
    rw [div_self hne]
    norm_num
    rw [show (100 : ℚ) = ((100 : Int) : ℚ) by norm_num, pyInt_intCast]
  · intro r
    rfl

/-- Witness for C5 at a concrete full-coverage report with one active model. -/
theorem c5_posture_score_amended_witness :
    _calculate_security_posture_score fullCoverageReport = 100 :=
  (c5_posture_score_amended fullCoverageReport rfl rfl rfl (by decide)).1

/-- C7: every rate in the pipeline is division-by-zero safe.  The three
analyzer rates return exactly 0 on the empty record list; the detection and
false-positive fractions and the summary resolution rate are extensionally
`numerator / max(denominator, 1)` (the resolution rate under the query
invariant `resolved ≤ total`); and the executive model coverage literally
divides by `max(total_models, 1)`. -/
theorem c7_rates_guarded_against_zero_division :
    _calculate_severity_score [] = 0
  ∧ _calculate_detection_rate [] = 0
  ∧ _calculate_false_positive_rate [] = 0
  ∧ (∀ threats : List ThreatRecord, _calculate_detection_rate threats
      = ((threats.filter fun t => ! t.false_positive.getD false).length : ℚ)
          / ((max threats.length 1 : Nat) : ℚ))
  ∧ (∀ threats : List ThreatRecord, _calculate_false_positive_rate threats
      = ((threats.filter fun t => t.false_positive.getD false).length : ℚ)
          / ((max threats.length 1 : Nat) : ℚ))
  ∧ (∀ resolved total : Nat, resolved ≤ total →
      resolutionRateCalc resolved total
        = (resolved : ℚ) / ((max total 1 : Nat) : ℚ) * 100)
  ∧ (∀ (organization_id : String) (days : Int) (data : QueryData),
      (_generate_executive_report organization_id days data).key_metrics.model_coverage
        = pyRound2 ((data.models.active_models : ℚ)
            / ((max data.models.total_models 1 : Nat) : ℚ) * 100)) := by
  refine ⟨rfl, rfl, rfl, ?_, ?_, ?_, fun _ _ _ => rfl⟩
  · intro threats
    unfold _calculate_detection_rate
    cases threats with
    | nil => simp
    | cons a as => simp [Nat.max_eq_left]
  · intro threats
    unfold _calculate_false_positive_rate
    cases threats with
    | nil => simp
    | cons a as => simp [Nat.max_eq_left]
  · intro resolved total h
    unfold resolutionRateCalc
    cases total with
    | zero =>
        have : resolved = 0 := Nat.le_zero.mp h
        simp [this]
    | succ n => simp [Nat.succ_le_succ, Nat.max_eq_left]

/-- Witness for C7's resolution-rate hypothesis at `resolved = 1`, `total = 2`. -/
theorem c7_rates_guarded_witness :
    resolutionRateCalc 1 2 = ((1 : Nat) : ℚ) / ((max 2 1 : Nat) : ℚ) * 100 :=
  c7_rates_guarded_against_zero_division.2.2.2.2.2.1 1 2 (by decide)

/-- C8: in the executive report the threat trend is "Increasing" exactly for
more than 50 total threats, "Stable" exactly for more than 20 and at most
50, and "Decreasing" exactly for at most 20 (so 20 gives "Decreasing" and 50
gives "Stable"); the executive report's `threat_trend` key is this function
of the underlying summary report. -/
theorem c8_threat_trend_boundaries (report : SummaryReport) :
    (_calculate_threat_trend report = "Increasing"
        ↔ 50 < report.executive_summary.total_threats)
  ∧ (_calculate_threat_trend report = "Stable"
        ↔ 20 < report.executive_summary.total_threats
            ∧ report.executive_summary.total_threats ≤ 50)
  ∧ (_calculate_threat_trend report = "Decreasing"
        ↔ report.executive_summary.total_threats ≤ 20)
  ∧ (∀ (organization_id : String) (days : Int) (data : QueryData),
      (_generate_executive_report organization_id days data).key_metrics.threat_trend
        = _calculate_threat_trend (_generate_summary_report organization_id days data)) := by
  refine ⟨?_, ?_, ?_, fun _ _ _ => rfl⟩ <;>
  · unfold _calculate_threat_trend
    split_ifs <;> simp_all <;> omega

/-- Each threat record is counted by exactly one of the two rate numerators. -/
theorem filter_false_positive_partition (threats : List ThreatRecord) :
    (threats.filter fun t => ! t.false_positive.getD false).length
      + (threats.filter fun t => t.false_positive.getD false).length
      = threats.length := by
  induction threats with
  | nil => rfl
  | cons a as ih =>
      cases hb : a.false_positive.getD false <;>
        simp [List.filter_cons, hb] <;> omega

/-- C10: on every non-empty threat list the detection rate and the
false-positive rate sum to exactly 1: both read the `false_positive` flag
with the same `False` default, so each record is counted by exactly one of
the two numerators. -/
theorem c10_detection_and_false_positive_complementary
    (threats : List ThreatRecord) (h : threats ≠ []) :
    _calculate_detection_rate threats + _calculate_false_positive_rate threats = 1 := by
  unfold _calculate_detection_rate _calculate_false_positive_rate
  rw [if_neg h, if_neg h, div_add_div_same]
  have hlen := filter_false_positive_partition threats
  have hcast : ((threats.filter fun t => ! t.false_positive.getD false).length : ℚ)
      + ((threats.filter fun t => t.false_positive.getD false).length : ℚ)
      = (threats.length : ℚ) := by
    exact_mod_cast congrArg (Nat.cast : Nat → ℚ) hlen
  rw [hcast]
  have h0 : (threats.length : ℚ) ≠ 0 := by
    exact_mod_cast Nat.pos_iff_ne_zero.mp (List.length_pos.mpr h)
  exact div_self h0

/-- Witness for C10 on a two-record list, one record lacking the
`false_positive` flag. -/
theorem c10_detection_and_false_positive_complementary_witness :
    _calculate_detection_rate [{ false_positive := some true }, {}]
        + _calculate_false_positive_rate [{ false_positive := some true }, {}] = 1 :=
  c10_detection_and_false_positive_complementary
    [{ false_positive := some true }, {}] (List.cons_ne_nil _ _)

end Omnisec
